import Mathlib

/-!
Verification of the SpecterApp upload / normalize / history core.

The definitions below are a shallow embedding of the logic in `src/App.js`
(a React Native component).  JavaScript values that can appear in a backend
JSON payload are modelled by `JSValue`; JavaScript truthiness and the
short-circuiting `or` operator are modelled by `truthy` and `jsOr`; property
access `data.key` on a parsed payload is modelled by `getField` (absent keys
give `jundefined`, exactly as in JavaScript).  The component state held in
React `useState` hooks is modelled by `AppState`, and the body of the
`uploadFile` callback is modelled as a list of primitive state updates
(`UIAction`) folded over the state, so that intermediate states of the
success continuation are also expressible.
-/

/-- JavaScript values reachable in the payload-handling code of `App.js`:
`undefined`, `null`, booleans, numbers (JSON numbers, modelled as `Int`),
strings, objects (ordered key/value lists) and arrays. -/
inductive JSValue where
  | jundefined : JSValue
  | jnull : JSValue
  | jbool : Bool → JSValue
  | jnum : Int → JSValue
  | jstr : String → JSValue
  | jobj : List (String × JSValue) → JSValue
  | jarr : List JSValue → JSValue
deriving Repr

/-- JavaScript truthiness: `undefined`, `null`, `false`, `0` and the empty
string are falsy; every object and array is truthy. -/
def truthy : JSValue → Bool
  | JSValue.jundefined => false
  | JSValue.jnull => false
  | JSValue.jbool b => b
  | JSValue.jnum n => n != 0
  | JSValue.jstr s => s != ""
  | JSValue.jobj _ => true
  | JSValue.jarr _ => true

/-- The JavaScript short-circuiting `a || b`. -/
def jsOr (a b : JSValue) : JSValue :=
  if truthy a then a else b

/-- JavaScript property access `v.k` as used on the parsed response payload:
on an object, the value bound to the key (first binding wins), otherwise
`undefined`; a key that is absent from the object also gives `undefined`. -/
def getField : JSValue → String → JSValue
  | JSValue.jobj fields, k => (fields.lookup k).getD JSValue.jundefined
  | _, _ => JSValue.jundefined

mutual

/-- JavaScript string conversion `String(v)`, as applied by
`new Error(message)` when a non-string lands in `message`. -/
def jsDisplay : JSValue → String
  | JSValue.jundefined => "undefined"
  | JSValue.jnull => "null"
  | JSValue.jbool b => if b then "true" else "false"
  | JSValue.jnum n => toString n
  | JSValue.jstr s => s
  | JSValue.jobj _ => "[object Object]"
  | JSValue.jarr xs => String.intercalate "," (jsDisplayList xs)

/-- Array elements under `String(array)`: `null` and `undefined` display as
the empty string, other elements recursively. -/
def jsDisplayList : List JSValue → List String
  | [] => []
  | JSValue.jnull :: xs => "" :: jsDisplayList xs
  | JSValue.jundefined :: xs => "" :: jsDisplayList xs
  | x :: xs => jsDisplay x :: jsDisplayList xs

end

/-- The normalized result record built in `App.js` lines 116 to 128 (the
`mappedChat` object literal).  Every field of the record exists by
construction; `id` and `timestamp` are client-generated strings
(`Date.now().toString()` and `new Date().toISOString()`), the remaining
fields hold whatever JavaScript value the mapping produced. -/
structure MappedChat where
  id : String
  timestamp : String
  filename : JSValue
  fileSize : JSValue
  originalText : JSValue
  correctedText : JSValue
  rawUrduText : JSValue
  firStructuredData : JSValue
  extractionType : JSValue
  correctionsApplied : JSValue
  correctionStats : JSValue
deriving Repr

/-- The field mapping of the `mappedChat` object literal in `App.js`
(lines 116 to 128), applied to the parsed payload `data`, with the
client-generated `id` and `timestamp` passed in as parameters:
`filename` from `data.filename`, `fileSize` from `data.file_size`,
`originalText` from `data.original_text || data.raw_urdu_text`,
`correctedText` from `data.corrected_text || data.corrected_urdu_text`,
`rawUrduText` from `data.raw_urdu_text`, `firStructuredData` from
`data.fir_structured_data`, `extractionType` from
`data.extraction_type || "text"`, `correctionsApplied` from
`data.corrections_applied`, and `correctionStats` from
`data.correction_stats || \x7b\x7d`. -/
def mkMappedChat (id ts : String) (data : JSValue) : MappedChat :=
  { id := id
    timestamp := ts
    filename := getField data "filename"
    fileSize := getField data "file_size"
    originalText := jsOr (getField data "original_text") (getField data "raw_urdu_text")
    correctedText := jsOr (getField data "corrected_text") (getField data "corrected_urdu_text")
    rawUrduText := getField data "raw_urdu_text"
    firStructuredData := getField data "fir_structured_data"
    extractionType := jsOr (getField data "extraction_type") (JSValue.jstr "text")
    correctionsApplied := getField data "corrections_applied"
    correctionStats := jsOr (getField data "correction_stats") (JSValue.jobj []) }

/-- The concrete scenario payload from the spec: filename, file size, raw
Urdu text and structured data present, everything else absent. -/
def scenarioPayload : JSValue :=
  JSValue.jobj
    [("filename", JSValue.jstr "a.jpg"),
     ("file_size", JSValue.jnum 1024),
     ("raw_urdu_text", JSValue.jstr "متن"),
     ("fir_structured_data", JSValue.jobj [("fir_number", JSValue.jstr "123")])]

/-- The React component state of `App.js` held in `useState` hooks
(`uploading`, `progress`, `error`, `chat`, `history`), together with a model
of the durable `AsyncStorage` record keyed by the string used at line 137
(`storage`, abstracted to the stored sequence; `none` is a missing or
unreadable record) and an instrumentation counter of issued `fetch` calls
(`networkCalls`). -/
structure AppState where
  uploading : Bool
  progress : Nat
  error : Option String
  chat : Option MappedChat
  history : List MappedChat
  storage : Option (List MappedChat)
  networkCalls : Nat
deriving Repr

/-- The history restored at process start.  `App.js` line 26 initializes the
history hook with a literal empty array and no code in the component ever
reads the persisted record back from `AsyncStorage` (the record is only
written, at line 136), so the initial history ignores the storage contents
entirely. -/
def initHistory (stored : Option (List MappedChat)) : List MappedChat := []

/-- The component state on first render, given the durable-storage contents
at process start: `uploading=false`, `progress=0`, `error=null`,
`chat=null`, and the history produced by `initHistory`. -/
def initialAppState (stored : Option (List MappedChat)) : AppState :=
  { uploading := false
    progress := 0
    error := none
    chat := none
    history := initHistory stored
    storage := stored
    networkCalls := 0 }

/-- Primitive state updates performed by the body of `uploadFile`:
the `useState` setters, the guarded `AsyncStorage.setItem` write, and the
issuing of the `fetch` call. -/
inductive UIAction where
  | setUploadingA : Bool → UIAction
  | setProgressA : Nat → UIAction
  | setErrorA : Option String → UIAction
  | setChatA : MappedChat → UIAction
  | setHistoryA : List MappedChat → UIAction
  | persistA : List MappedChat → Bool → UIAction
  | fetchIssuedA : UIAction
deriving Repr

/-- Effect of one primitive update on the component state.  `persistA h ok`
models `AsyncStorage.setItem("specter_history", JSON.stringify(h))`: when the
write succeeds the durable record becomes `h`; when it throws or rejects the
exception is swallowed by the empty `catch` at line 140 and the state is
untouched. -/
def applyAction (s : AppState) : UIAction → AppState
  | UIAction.setUploadingA b => { s with uploading := b }
  | UIAction.setProgressA n => { s with progress := n }
  | UIAction.setErrorA e => { s with error := e }
  | UIAction.setChatA c => { s with chat := some c }
  | UIAction.setHistoryA h => { s with history := h }
  | UIAction.persistA h ok => if ok then { s with storage := some h } else s
  | UIAction.fetchIssuedA => { s with networkCalls := s.networkCalls + 1 }

/-- Outcome of the `fetch` call to the upload endpoint, as far as
`uploadFile` can observe it: a 2xx response whose body either parses as JSON
or fails to parse (`response.json()` throwing with the given message), a
non-2xx response with its status and body-parse outcome, or a network-level
failure in which `fetch` itself rejects with the given error message. -/
inductive Transport where
  | ok : Except String JSValue → Transport
  | httpErr : Nat → Except String JSValue → Transport
  | netErr : String → Transport
deriving Repr

/-- The error message computed for a non-2xx response at `App.js` lines
100 to 110: start from the generic status message, then try to parse the
body as JSON; if that succeeds and `errJson && errJson.detail` is truthy,
the message becomes the `detail` value, otherwise the JSON-parse failure is
ignored and the generic message stands. -/
def errorMessageFor (status : Nat) (body : Except String JSValue) : String :=
  match body with
  | Except.ok j =>
      if truthy (getField j "detail") then jsDisplay (getField j "detail")
      else "Upload failed with status " ++ toString status
  | Except.error _ => "Upload failed with status " ++ toString status

/-- The JavaScript fallback `m || fallback` on strings, as used by the catch
clause `setError(e.message || "Failed to process file")` at line 145. -/
def orElseStr (m fallback : String) : String :=
  if m = "" then fallback else m

/-- The ordered sequence of state updates performed by one run of
`uploadFile` (`App.js` lines 69 to 152) for a given transport outcome.
`captured` is the value of the `history` variable the callback closes over
(see `pressUpload`).  The run always starts with `setUploading(true)`,
`setError(null)`, `setProgress(0)` and the `fetch` call.  On a 2xx response
with parseable JSON it performs `setProgress(100)`, builds the mapped chat,
calls `setChat`, computes `[mappedChat, ...history].slice(0, 20)`, calls
`setHistory`, and attempts the `AsyncStorage` write (`pOk` says whether that
write succeeds; failure is swallowed).  On a 2xx response with an
unparseable body the thrown parse error reaches the catch clause.  On a
non-2xx response the thrown `Error(message)` reaches the catch clause.  On a
network failure the rejection of `fetch` reaches the catch clause, with no
`setProgress(100)` in between.  The run always finishes with the `finally`
block `setUploading(false)` and the (delayed, cosmetic) `setProgress(0)`. -/
def uploadTrace (captured : List MappedChat) (newId newTs : String)
    (pOk : Bool) (t : Transport) : List UIAction :=
  [UIAction.setUploadingA true, UIAction.setErrorA none,
   UIAction.setProgressA 0, UIAction.fetchIssuedA] ++
  (match t with
   | Transport.ok (Except.ok data) =>
       let m := mkMappedChat newId newTs data
       let nextHistory := (m :: captured).take 20
       [UIAction.setProgressA 100, UIAction.setChatA m,
        UIAction.setHistoryA nextHistory, UIAction.persistA nextHistory pOk]
   | Transport.ok (Except.error parseMsg) =>
       [UIAction.setProgressA 100,
        UIAction.setErrorA (some (orElseStr parseMsg "Failed to process file"))]
   | Transport.httpErr status body =>
       [UIAction.setProgressA 100,
        UIAction.setErrorA
          (some (orElseStr (errorMessageFor status body) "Failed to process file"))]
   | Transport.netErr msg =>
       [UIAction.setErrorA (some (orElseStr msg "Failed to process file"))]) ++
  [UIAction.setUploadingA false, UIAction.setProgressA 0]

/-- The state after one complete run of `uploadFile` on state `s`. -/
def runUpload (s : AppState) (captured : List MappedChat) (newId newTs : String)
    (pOk : Bool) (t : Transport) : AppState :=
  (uploadTrace captured newId newTs pOk t).foldl applyAction s

/-- One press of the upload button.  The button carries
`disabled=\x7buploading\x7d` (`App.js` line 382), and a disabled
`TouchableOpacity` does not invoke its `onPress` handler, so when an upload
is in flight the press does nothing at all.  Otherwise the press runs
`uploadFile`.  Because `uploadFile` is memoized by `useCallback` with an
empty dependency list (line 151), the `history` variable it closes over is
the one from the first render, which is the initial empty array; the run
therefore always uses `captured = []`. -/
def pressUpload (s : AppState) (newId newTs : String) (pOk : Bool)
    (t : Transport) : AppState :=
  if s.uploading then s else runUpload s [] newId newTs pOk t

/-- Pressing a history chip (`App.js` lines 350 to 353): the handler calls
`setChat(item)` and `setError(null)` and nothing else. -/
def selectHistory (s : AppState) (item : MappedChat) : AppState :=
  { s with chat := some item, error := none }

/-- The states visited while a list of updates executes, starting state
included: the instrumented small-step view of one continuation. -/
def statesFrom (s : AppState) : List UIAction → List AppState
  | [] => [s]
  | a :: rest => s :: statesFrom (applyAction s a) rest

/-- The normalizer output without the client-generated `id` and
`timestamp`: the tuple of the nine payload-derived fields. -/
def chatCore (c : MappedChat) :
    JSValue × JSValue × JSValue × JSValue × JSValue × JSValue × JSValue ×
    JSValue × JSValue :=
  (c.filename, c.fileSize, c.originalText, c.correctedText, c.rawUrduText,
   c.firStructuredData, c.extractionType, c.correctionsApplied,
   c.correctionStats)

/-- A sample normalized result used as concrete data in several statements. -/
def sampleResult : MappedChat :=
  mkMappedChat "1700000000000" "2024-01-01T00:00:00.000Z" scenarioPayload

/-- Claim C1, counterexample: on the scenario payload the code leaves
`correctedText` as the JavaScript value `undefined` (the result of
`undefined || undefined`), not the `null` the claim requires, so the
documented-null rule is violated. -/
theorem c1_counterexample :
    (mkMappedChat "1" "t" scenarioPayload).correctedText = JSValue.jundefined ∧
    (mkMappedChat "1" "t" scenarioPayload).correctedText ≠ JSValue.jnull := by
  have h : (mkMappedChat "1" "t" scenarioPayload).correctedText = JSValue.jundefined := rfl
  refine ⟨h, ?_⟩
  rw [h]
  exact fun hc => JSValue.noConfusion hc

/-- Claim C1, amended: every normalized result has a value for each of its
keys by construction, but a source absent from the payload yields the
JavaScript `undefined` value (not `null`) for the pass-through fields, while
`extractionType` defaults to the string "text" and `correctionStats` to the
empty object; on the scenario payload the result has `filename="a.jpg"`,
`fileSize=1024`, `rawUrduText="متن"`, `originalText="متن"`,
`correctedText=undefined`, `extractionType="text"` and an empty
`correctionStats`. -/
theorem c1_amended (id ts : String) (p : JSValue) :
    (getField p "corrected_text" = JSValue.jundefined →
      getField p "corrected_urdu_text" = JSValue.jundefined →
      (mkMappedChat id ts p).correctedText = JSValue.jundefined) ∧
    (getField p "filename" = JSValue.jundefined →
      (mkMappedChat id ts p).filename = JSValue.jundefined) ∧
    (getField p "extraction_type" = JSValue.jundefined →
      (mkMappedChat id ts p).extractionType = JSValue.jstr "text") ∧
    (getField p "correction_stats" = JSValue.jundefined →
      (mkMappedChat id ts p).correctionStats = JSValue.jobj []) ∧
    (mkMappedChat id ts scenarioPayload).filename = JSValue.jstr "a.jpg" ∧
    (mkMappedChat id ts scenarioPayload).fileSize = JSValue.jnum 1024 ∧
    (mkMappedChat id ts scenarioPayload).rawUrduText = JSValue.jstr "متن" ∧
    (mkMappedChat id ts scenarioPayload).originalText = JSValue.jstr "متن" ∧
    (mkMappedChat id ts scenarioPayload).correctedText = JSValue.jundefined ∧
    (mkMappedChat id ts scenarioPayload).extractionType = JSValue.jstr "text" ∧
    (mkMappedChat id ts scenarioPayload).correctionStats = JSValue.jobj [] := by
  refine ⟨?_, ?_, ?_, ?_, rfl, rfl, rfl, rfl, rfl, rfl, rfl⟩
  · intro h1 h2
    simp [mkMappedChat, jsOr, h1, h2, truthy]
  · intro h
    simp [mkMappedChat, h]
  · intro h
    simp [mkMappedChat, jsOr, h, truthy]
  · intro h
    simp [mkMappedChat, jsOr, h, truthy]

/-- Claim C1, witness: the amended theorem applied to the scenario payload,
whose corrected-text, extraction-type and correction-stats sources are all
absent. -/
theorem c1_amended_witness :
    (mkMappedChat "1" "t" scenarioPayload).correctedText = JSValue.jundefined ∧
    (mkMappedChat "1" "t" scenarioPayload).extractionType = JSValue.jstr "text" ∧
    (mkMappedChat "1" "t" scenarioPayload).correctionStats = JSValue.jobj [] := by
  have h := c1_amended "1" "t" scenarioPayload
  exact ⟨h.1 rfl rfl, h.2.2.1 rfl, h.2.2.2.1 rfl⟩

/-- Claim C3, counterexample: a persisted record holding a nonempty valid
sequence is not restored at process start; the history starts empty
regardless, so the restored history is not the persisted sequence. -/
theorem c3_counterexample :
    initHistory (some [sampleResult]) ≠ [sampleResult] ∧
    (initialAppState (some [sampleResult])).history ≠ [sampleResult] := by
  constructor
  · simp [initHistory]
  · simp [initialAppState, initHistory]

/-- Claim C3, amended: at every process start the history is the empty
sequence regardless of the persisted durable-storage record; the component
writes the record on each success but never reads it back, so in particular
no deserialization failure can propagate. -/
theorem c3_amended (stored : Option (List MappedChat)) :
    initHistory stored = [] ∧ (initialAppState stored).history = [] :=
  ⟨rfl, rfl⟩

/-- Claim C6: the normalizer is a pure function of the payload alone; two
clients with different client-generated ids and timestamps that are fed the
same payload produce field-for-field identical results outside `id` and
`timestamp`, and repeating the normalization gives the same output. -/
theorem c6_parity (id1 ts1 id2 ts2 : String) (p : JSValue) :
    chatCore (mkMappedChat id1 ts1 p) = chatCore (mkMappedChat id2 ts2 p) ∧
    mkMappedChat id1 ts1 p = mkMappedChat id1 ts1 p :=
  ⟨rfl, rfl⟩

/-- Payload of the i-th test upload in the sequential-upload runs: an object
whose file_size field is i plus one, so the 25 uploads are distinguishable. -/
def plUpload (i : Nat) : JSValue :=
  JSValue.jobj [("file_size", JSValue.jnum ((i : Int) + 1))]

/-- The component state after 25 sequential successful uploads, each pressed
after the previous one has completed, starting from a fresh process with no
persisted record. -/
def after25 : AppState :=
  (List.range 25).foldl
    (fun s i => pressUpload s "" "ts" true (Transport.ok (Except.ok (plUpload i))))
    (initialAppState none)

/-- Claim C2, code behavior at the failing input: because `uploadFile` is
memoized by `useCallback` with an empty dependency list, it closes over the
first-render history (the empty array), so every successful upload computes
its next history from the empty array; after 25 sequential successful
uploads the history holds exactly one entry, the 25th result, instead of the
20 entries (25th down to 6th) that the cap logic was written to keep. -/
theorem c2_history_bug :
    after25.history.length = 1 ∧
    after25.history.head? = some (mkMappedChat "" "ts" (plUpload 24)) ∧
    after25.chat = some (mkMappedChat "" "ts" (plUpload 24)) ∧
    ¬ after25.history.length = 20 := by
  refine ⟨rfl, rfl, rfl, ?_⟩
  intro h
  have h1 : after25.history.length = 1 := rfl
  rw [h1] at h
  exact absurd h (by decide)

/-- A state with an upload transaction in flight, used as concrete data. -/
def inFlightState : AppState :=
  { uploading := true
    progress := 30
    error := none
    chat := none
    history := []
    storage := none
    networkCalls := 1 }

/-- Claim C4: while an upload is in flight the upload button is rendered
with the disabled flag set (it carries the uploading state), and a disabled
touchable does not invoke its press handler, so a second submission attempt
leaves the state — including the count of issued network calls — completely
unchanged. -/
theorem c4_submit_guard (s : AppState) (newId newTs : String) (pOk : Bool)
    (t : Transport) (h : s.uploading = true) :
    pressUpload s newId newTs pOk t = s ∧
    (pressUpload s newId newTs pOk t).networkCalls = s.networkCalls := by
  have hs : pressUpload s newId newTs pOk t = s := by
    simp [pressUpload, h]
  exact ⟨hs, by rw [hs]⟩

/-- Claim C4, witness: a second press while the in-flight state is current
is a no-op for a concrete in-flight state. -/
theorem c4_submit_guard_witness :
    pressUpload inFlightState "9" "t" true (Transport.netErr "boom") = inFlightState :=
  (c4_submit_guard inFlightState "9" "t" true (Transport.netErr "boom") rfl).1

/-- The generic status message thrown at `App.js` line 101 is never the
empty string, so the catch-clause fallback never replaces it. -/
theorem uploadStatusMsg_ne_empty (status : Nat) :
    ("Upload failed with status " ++ toString status) ≠ "" := by
  intro h
  have hd : ("Upload failed with status ").data ++ (toString status).data = [] := by
    rw [← String.data_append, h]
  have h1 : ("Upload failed with status ").data = [] :=
    (List.append_eq_nil.mp hd).1
  exact absurd h1 (by decide)

/-- Body of the non-2xx response used to refute claim C5 as stated: the
detail field is present but holds the empty string. -/
def c5Body : JSValue := JSValue.jobj [("detail", JSValue.jstr "")]

/-- The run of `uploadFile` against a 422 response whose body is `c5Body`,
from a fresh state. -/
def c5Run : AppState :=
  runUpload (initialAppState none) [] "1" "t" true
    (Transport.httpErr 422 (Except.ok c5Body))

/-- Claim C5, counterexample: with a 422 response whose parseable body has a
present detail field holding the empty string, the code falls back to the
generic status message instead of using the present detail field, because
the guard at `App.js` line 104 tests truthiness, not presence. -/
theorem c5_counterexample :
    getField c5Body "detail" = JSValue.jstr "" ∧
    c5Run.error = some "Upload failed with status 422" ∧
    c5Run.error ≠ some "" := by
  refine ⟨rfl, rfl, ?_⟩
  have h : c5Run.error = some "Upload failed with status 422" := rfl
  rw [h]
  intro hc
  have hs := Option.some.inj hc
  exact absurd (congrArg String.data hs) (by decide)

/-- Claim C5, amended: on every failing upload the session ends with the
uploading flag cleared and an error message chosen by this precedence: the
JSON detail field of the error response body when it is present and truthy
(in particular any non-empty string), otherwise the generic status message,
otherwise (network-level failure with no response) the underlying transport
error message; and in every such failure the history is unchanged. -/
theorem c5_amended (s : AppState) (captured : List MappedChat)
    (newId newTs : String) (pOk : Bool) :
    (∀ status j d, getField j "detail" = JSValue.jstr d → d ≠ "" →
      (runUpload s captured newId newTs pOk
        (Transport.httpErr status (Except.ok j))).error = some d) ∧
    (∀ status j, truthy (getField j "detail") = false →
      (runUpload s captured newId newTs pOk
        (Transport.httpErr status (Except.ok j))).error
        = some ("Upload failed with status " ++ toString status)) ∧
    (∀ status parseMsg,
      (runUpload s captured newId newTs pOk
        (Transport.httpErr status (Except.error parseMsg))).error
        = some ("Upload failed with status " ++ toString status)) ∧
    (∀ msg, msg ≠ "" →
      (runUpload s captured newId newTs pOk (Transport.netErr msg)).error
        = some msg) ∧
    (∀ status body,
      (runUpload s captured newId newTs pOk
        (Transport.httpErr status body)).history = s.history ∧
      (runUpload s captured newId newTs pOk
        (Transport.httpErr status body)).uploading = false) ∧
    (∀ msg,
      (runUpload s captured newId newTs pOk (Transport.netErr msg)).history
        = s.history ∧
      (runUpload s captured newId newTs pOk (Transport.netErr msg)).uploading
        = false) := by
  refine ⟨?_, ?_, ?_, ?_, ?_, ?_⟩
  · intro status j d hdet hne
    simp [runUpload, uploadTrace, applyAction, errorMessageFor, hdet, truthy,
      hne, jsDisplay, orElseStr]
  · intro status j hfalsy
    simp [runUpload, uploadTrace, applyAction, errorMessageFor, hfalsy,
      orElseStr, uploadStatusMsg_ne_empty status]
  · intro status parseMsg
    simp [runUpload, uploadTrace, applyAction, errorMessageFor, orElseStr,
      uploadStatusMsg_ne_empty status]
  · intro msg hne
    simp [runUpload, uploadTrace, applyAction, orElseStr, hne]
  · intro status body
    constructor <;>
      simp [runUpload, uploadTrace, applyAction]
  · intro msg
    constructor <;>
      simp [runUpload, uploadTrace, applyAction]

/-- Claim C5, witness: the 422 scenario with body detail "Unsupported file
type" ends Failed with exactly that error message and an unchanged
history. -/
theorem c5_amended_witness :
    (runUpload (initialAppState none) [] "1" "t" true
      (Transport.httpErr 422
        (Except.ok (JSValue.jobj [("detail", JSValue.jstr "Unsupported file type")])))).error
      = some "Unsupported file type" ∧
    (runUpload (initialAppState none) [] "1" "t" true
      (Transport.httpErr 422
        (Except.ok (JSValue.jobj [("detail", JSValue.jstr "Unsupported file type")])))).history
      = (initialAppState none).history ∧
    (runUpload (initialAppState none) [] "1" "t" true
      (Transport.httpErr 422
        (Except.ok (JSValue.jobj [("detail", JSValue.jstr "Unsupported file type")])))).uploading
      = false := by
  have h := c5_amended (initialAppState none) [] "1" "t" true
  refine ⟨h.1 422 _ "Unsupported file type" rfl (by decide), ?_, ?_⟩
  · exact (h.2.2.2.2.1 422 _).1
  · exact (h.2.2.2.2.1 422 _).2

/-- Claim C7: when the durable-storage write of the history fails, the
failure is swallowed: the in-memory state after the run is identical to the
one after a run whose write succeeded; the current result is the freshly
mapped chat, the in-memory history push took effect, no error is surfaced
and the durable record simply keeps its old contents. -/
theorem c7_persist_swallowed (s : AppState) (captured : List MappedChat)
    (newId newTs : String) (data : JSValue) :
    (runUpload s captured newId newTs false (Transport.ok (Except.ok data))).chat
      = some (mkMappedChat newId newTs data) ∧
    (runUpload s captured newId newTs false (Transport.ok (Except.ok data))).history
      = (mkMappedChat newId newTs data :: captured).take 20 ∧
    (runUpload s captured newId newTs false (Transport.ok (Except.ok data))).error
      = none ∧
    (runUpload s captured newId newTs false (Transport.ok (Except.ok data))).uploading
      = false ∧
    (runUpload s captured newId newTs false (Transport.ok (Except.ok data))).storage
      = s.storage ∧
    (runUpload s captured newId newTs false (Transport.ok (Except.ok data))).chat
      = (runUpload s captured newId newTs true (Transport.ok (Except.ok data))).chat ∧
    (runUpload s captured newId newTs false (Transport.ok (Except.ok data))).history
      = (runUpload s captured newId newTs true (Transport.ok (Except.ok data))).history ∧
    (runUpload s captured newId newTs false (Transport.ok (Except.ok data))).error
      = (runUpload s captured newId newTs true (Transport.ok (Except.ok data))).error := by
  refine ⟨?_, ?_, ?_, ?_, ?_, ?_, ?_, ?_⟩ <;>
    simp [runUpload, uploadTrace, applyAction]

/-- The mapped result of the payload used in the C8 intermediate-state
counterexample. -/
def c8Mapped : MappedChat := mkMappedChat "7" "t" scenarioPayload

/-- The component state reached part-way through the success continuation of
`uploadFile`: after the first six updates of the trace, that is right after
`setChat(mappedChat)` at `App.js` line 130 and before `setHistory` at line
134. -/
def c8Partial : AppState :=
  ((uploadTrace [] "7" "t" true (Transport.ok (Except.ok scenarioPayload))).take 6).foldl
    applyAction (initialAppState none)

/-- Claim C8, counterexample: the success continuation updates the current
result first (`setChat` at line 130) and the history afterwards (`setHistory`
at line 134), so at the intermediate execution point right after `setChat`
the current result is the new chat while the history head is not — the
history store is not updated before the current-result pointer. -/
theorem c8_counterexample :
    c8Partial.chat = some c8Mapped ∧
    c8Partial.history = [] ∧
    c8Partial.history.head? ≠ some c8Mapped := by
  refine ⟨rfl, rfl, ?_⟩
  have h : c8Partial.history = [] := rfl
  rw [h]
  intro hc
  exact Option.noConfusion hc

/-- Claim C8, amended: on every successful upload the current-result pointer
is set first and the history immediately afterwards, both inside the same
synchronous continuation; once the run completes, the history head is
exactly the current result, so an observer of the completed state reading
the latest history head sees the same object as the current result. -/
theorem c8_amended (s : AppState) (captured : List MappedChat)
    (newId newTs : String) (pOk : Bool) (data : JSValue) :
    (runUpload s captured newId newTs pOk (Transport.ok (Except.ok data))).history.head?
      = (runUpload s captured newId newTs pOk (Transport.ok (Except.ok data))).chat ∧
    (runUpload s captured newId newTs pOk (Transport.ok (Except.ok data))).chat
      = some (mkMappedChat newId newTs data) := by
  cases pOk <;> constructor <;> simp [runUpload, uploadTrace, applyAction]

/-- A state carrying a previous failure banner and a one-entry history, used
as concrete data for the select-operation claims. -/
def errState : AppState :=
  { uploading := false
    progress := 0
    error := some "previous failure"
    chat := none
    history := [sampleResult]
    storage := some [sampleResult]
    networkCalls := 1 }

/-- Claim C9, counterexample: pressing a history chip does not change only
the current-result pointer — the handler also calls `setError(null)`
(`App.js` line 352), so a previously displayed error banner is cleared by
the selection. -/
theorem c9_counterexample :
    sampleResult ∈ errState.history ∧
    (selectHistory errState sampleResult).error ≠ errState.error := by
  constructor
  · simp [errState]
  · have h1 : (selectHistory errState sampleResult).error = none := rfl
    have h2 : errState.error = some "previous failure" := rfl
    rw [h1, h2]
    intro hc
    exact Option.noConfusion hc

/-- Claim C9, amended: selecting a stored history item changes only the
current-result pointer and clears the error banner; the stored sequence,
its contents and its order are untouched, as are the uploading flag, the
progress value, the durable record and the count of network calls — in
particular no network call is issued and the history is not mutated by the
read/select operation. -/
theorem c9_select_frame (s : AppState) (item : MappedChat)
    (h : item ∈ s.history) :
    (selectHistory s item).history = s.history ∧
    (selectHistory s item).chat = some item ∧
    (selectHistory s item).error = none ∧
    (selectHistory s item).uploading = s.uploading ∧
    (selectHistory s item).progress = s.progress ∧
    (selectHistory s item).storage = s.storage ∧
    (selectHistory s item).networkCalls = s.networkCalls :=
  ⟨rfl, rfl, rfl, rfl, rfl, rfl, rfl⟩

/-- Claim C9, witness: selecting the single stored entry of a concrete state
leaves its history unchanged and points the current result at the entry. -/
theorem c9_select_frame_witness :
    (selectHistory errState sampleResult).history = errState.history ∧
    (selectHistory errState sampleResult).chat = some sampleResult := by
  have h := c9_select_frame errState sampleResult (by simp [errState])
  exact ⟨h.1, h.2.1⟩

/-- Claim C10: a failing upload — whether a non-2xx response, a network
failure, or a 2xx response whose body does not parse — leaves the current
result, the in-memory history and the durable record exactly as they were,
so a result displayed by an earlier success stays available; only the error
message, the uploading flag and the progress value are touched. -/
theorem c10_failure_frame (s : AppState) (captured : List MappedChat)
    (newId newTs : String) (pOk : Bool) :
    (∀ status body,
      (runUpload s captured newId newTs pOk (Transport.httpErr status body)).chat = s.chat ∧
      (runUpload s captured newId newTs pOk (Transport.httpErr status body)).history = s.history ∧
      (runUpload s captured newId newTs pOk (Transport.httpErr status body)).storage = s.storage) ∧
    (∀ msg,
      (runUpload s captured newId newTs pOk (Transport.netErr msg)).chat = s.chat ∧
      (runUpload s captured newId newTs pOk (Transport.netErr msg)).history = s.history ∧
      (runUpload s captured newId newTs pOk (Transport.netErr msg)).storage = s.storage) ∧
    (∀ parseMsg,
      (runUpload s captured newId newTs pOk (Transport.ok (Except.error parseMsg))).chat = s.chat ∧
      (runUpload s captured newId newTs pOk (Transport.ok (Except.error parseMsg))).history = s.history ∧
      (runUpload s captured newId newTs pOk (Transport.ok (Except.error parseMsg))).storage = s.storage) := by
  refine ⟨fun status body => ?_, fun msg => ?_, fun parseMsg => ?_⟩ <;>
    refine ⟨?_, ?_, ?_⟩ <;>
      simp [runUpload, uploadTrace, applyAction]
